import Mathlib

/-!
Verification development for the thread-sharing input selector element
(`src/gst-plugin-threadshare/src/inputselector.rs`).

The element forwards buffers from one designated active sink pad to a single
source pad, delaying each buffer until its running time is due, replaying
sticky events after a pad switch and marking discontinuities.

Shallow embedding conventions:
  * `gst::ClockTime` is `Option Nat` (`none` = `CLOCK_TIME_NONE`), ordered as
    Rust's derived `Ord` on `Option<u64>` (`None` least).
  * External collaborators are oracles passed as arguments: the current
    running time read by `sync`, whether the abortable wait was aborted, and
    the downstream result of pushing the buffer on the source pad.
  * Everything observable pushed on the source pad is recorded in a trace
    (`Act`), in program order; the completed presentation-time wait is also
    recorded so that the relative order of wait, sticky pushes and the buffer
    push is visible.
-/

namespace ThreadshareInputSelector

/-- Sticky events are opaque; only identity and order matter here. -/
abbrev Event := Nat

/-- A `gst::Buffer`, reduced to the data `handle_item` inspects: its pts and
its `DISCONT` flag, plus an identity so distinct buffers stay distinct. -/
structure Buffer where
  id : Nat
  pts : Option Nat
  discont : Bool
deriving DecidableEq, Repr

/-- `gst::FlowError` cases relevant to the element. -/
inductive FlowError where
  | flushing
  | eos
  | notNegotiated
  | other
deriving DecidableEq, Repr

/-- `Result<gst::FlowSuccess, gst::FlowError>` with `FlowSuccess::Ok`. -/
inductive FlowRes where
  | ok
  | err (e : FlowError)
deriving DecidableEq, Repr

/-- A `gst::Segment`: either a time-formatted segment carrying its
`to_running_time` mapping (pts ↦ running time), or a segment of another
format (`downcast_ref::<gst::format::Time>()` fails on it). -/
inductive Segment where
  | time (toRunningTime : Option Nat → Option Nat)
  | nonTime

/-- `InputSelectorPadSinkHandlerInner`: per-sink-pad state. `abort_handle`
records whether an abort handle is currently stored (`Option<AbortHandle>`
reduced to its `is_some`). -/
structure SinkInner where
  segment : Option Segment
  send_sticky : Bool
  abort_handle : Bool

/-- `InputSelectorPadSinkHandlerInner::default()`. -/
def initialSinkInner : SinkInner :=
  { segment := none, send_sticky := true, abort_handle := false }

/-- The element-global `State`: the active sink pad (by identity) and the
`switched_pad` flag. -/
structure State where
  active_sinkpad : Option Nat
  switched_pad : Bool
deriving DecidableEq, Repr

/-- `State::default()`: no active pad, `switched_pad` initially true. -/
def initialState : State :=
  { active_sinkpad := none, switched_pad := true }

/-- A sink pad: its identity and its accumulated sticky events, in the order
`sticky_events_foreach` yields them. -/
structure SinkPad where
  id : Nat
  stickies : List Event
deriving DecidableEq, Repr

/-- Observable actions on the source pad, in program order. `wait d` records
a completed presentation-time wait that suspended for `d` (none = the timer
was not started because the buffer was already due or the clock had no valid
time). -/
inductive Act where
  | wait (delay : Option Nat)
  | pushEvent (e : Event)
  | pushBuffer (b : Buffer)
  | pushFlushStart
deriving DecidableEq, Repr

/-- Rust's derived `<` on `gst::ClockTime` = `Option<u64>`: `None` is least. -/
def clockLt : Option Nat → Option Nat → Bool
  | none, some _ => true
  | none, none => false
  | some _, none => false
  | some a, some b => a < b

/-- `ClockTime` subtraction: `Some - Some` maps through, otherwise `None`. -/
def ctSub : Option Nat → Option Nat → Option Nat
  | some a, some b => some (a - b)
  | _, _ => none

/-- `InputSelectorPadSinkHandler::sync`, as the delay it sleeps for:
`some d` means the task suspends for `d` nanoseconds, `none` means it
returns immediately (clock has no valid time, or the buffer is already due).
Source: `if now.is_some() && now < running_time { delay_for(running_time - now) }`. -/
def sync_delay (now running_time : Option Nat) : Option Nat :=
  if now.isSome && clockLt now running_time then ctSub running_time now else none

/-- The running time the sink handler computes for a buffer: `some rtime`
iff a time segment is known (and hence an abortable sync future is created),
where `rtime = segment.to_running_time(buffer.get_pts())`. -/
def segTargetTime (inner : SinkInner) (pts : Option Nat) : Option (Option Nat) :=
  match inner.segment with
  | some (Segment.time f) => some (f pts)
  | _ => none

/-- The wait portion of a `handle_item` trace, for stating theorems: one
completed wait when a time segment is known, nothing otherwise. -/
def waitTrace (inner : SinkInner) (pts now : Option Nat) : List Act :=
  match inner.segment with
  | some (Segment.time f) => [Act.wait (sync_delay now (f pts))]
  | _ => []

/-- Result of one `handle_item` run: updated global state, updated per-pad
state, the trace of source-pad actions, and the flow result. -/
structure ItemResult where
  state : State
  inner : SinkInner
  trace : List Act
  result : FlowRes

/-- Snapshot produced by `handle_item`'s initial critical section (both
locks held): the updated states, the collected stickies, whether this pad is
active, the entry value of `switched_pad`, and — iff an abortable sync
future was created — its target running time. -/
structure CsOut where
  state : State
  inner : SinkInner
  stickies : List Event
  is_active : Bool
  switched_pad : Bool
  sync_target : Option (Option Nat)

/-- The critical section of `InputSelectorPadSinkHandler::handle_item`
(both mutexes held): snapshot `switched_pad`; if a time segment is known,
create the abortable sync future and store its abort handle; if this pad is
the active one and stickies are owed (`send_sticky || switched_pad`),
collect the pad's sticky events and clear both flags. -/
def handle_item_cs (pad : SinkPad) (st : State) (inner : SinkInner)
    (buffer : Buffer) : CsOut :=
  let switched_pad := st.switched_pad
  let sync_target := segTargetTime inner buffer.pts
  let inner1 :=
    if sync_target.isSome then { inner with abort_handle := true } else inner
  if st.active_sinkpad = some pad.id then
    if inner1.send_sticky || st.switched_pad then
      { state := { st with switched_pad := false },
        inner := { inner1 with send_sticky := false },
        stickies := pad.stickies,
        is_active := true, switched_pad := switched_pad,
        sync_target := sync_target }
    else
      { state := st, inner := inner1, stickies := [],
        is_active := true, switched_pad := switched_pad,
        sync_target := sync_target }
  else
    { state := st, inner := inner1, stickies := [],
      is_active := false, switched_pad := switched_pad,
      sync_target := sync_target }

/-- The rest of `handle_item`, after the locks are released: await the sync
future if one was created (`Err(Flushing)` if it was aborted, recorded wait
otherwise), then push the collected stickies, then — if active — push the
buffer, setting `DISCONT` first when a switch was pending and the buffer did
not already carry the flag. `now` is the running time `sync` reads;
`cancelled` says whether the abortable future was aborted; `push_res` is
what `src_pad.push(buffer)` returns downstream. -/
def handle_item_rest (c : CsOut) (buffer : Buffer) (now : Option Nat)
    (cancelled : Bool) (push_res : FlowRes) : ItemResult :=
  if c.sync_target.isSome && cancelled then
    { state := c.state, inner := c.inner, trace := [],
      result := FlowRes.err FlowError.flushing }
  else
    let waitTr :=
      match c.sync_target with
      | some rtime => [Act.wait (sync_delay now rtime)]
      | none => []
    let evTr := c.stickies.map Act.pushEvent
    if c.is_active then
      let buffer1 :=
        if c.switched_pad && !buffer.discont then
          { buffer with discont := true }
        else buffer
      { state := c.state, inner := c.inner,
        trace := waitTr ++ evTr ++ [Act.pushBuffer buffer1],
        result := push_res }
    else
      { state := c.state, inner := c.inner, trace := waitTr ++ evTr,
        result := FlowRes.ok }

/-- `InputSelectorPadSinkHandler::handle_item`, critical section followed by
the awaiting/pushing phase. -/
def handle_item (pad : SinkPad) (st : State) (inner : SinkInner)
    (buffer : Buffer) (now : Option Nat) (cancelled : Bool)
    (push_res : FlowRes) : ItemResult :=
  handle_item_rest (handle_item_cs pad st inner buffer) buffer now cancelled
    push_res

/-- `sink_event` on `FlushStart`: push the flush-start event downstream on
the source pad, then take and abort the stored abort handle, if any. -/
def sink_event_flush_start (inner : SinkInner) : SinkInner × List Act :=
  ({ inner with abort_handle := false }, [Act.pushFlushStart])

/-- A run of `handle_item` with a concurrent flush-start arriving while the
sync future (if any) is pending: the critical section runs first, then the
flush-start handler (from another task) pushes flush-start downstream and
aborts the stored handle, then the suspended phase resumes and observes the
abort. The wait is actually aborted iff a handle was stored. -/
def handle_item_with_flush (pad : SinkPad) (st : State) (inner : SinkInner)
    (buffer : Buffer) (now : Option Nat) (push_res : FlowRes) :
    ItemResult × List Act :=
  let c := handle_item_cs pad st inner buffer
  let fl := sink_event_flush_start c.inner
  let aborted := c.inner.abort_handle
  (handle_item_rest { c with inner := fl.1 } buffer now aborted push_res,
    fl.2)

/-- The `active-pad` branch of `InputSelector::set_property`: selecting a
pad that is currently in `pads.sink_pads` makes it active and raises
`switched_pad`; selecting an unknown pad changes nothing; selecting `None`
clears the active pad (and only that). `connected` enumerates the currently
connected sink pads. -/
def set_active (st : State) (connected : List Nat) (pad : Option Nat) :
    State :=
  match pad with
  | some p =>
      if connected.contains p then
        { active_sinkpad := some p, switched_pad := true }
      else st
  | none => { st with active_sinkpad := none }

/-- The relayed latency-query answer: the query's stored result
(live, min, max) and the boolean the handler returns. -/
structure LatencyAnswer where
  ret : Bool
  live : Bool
  minLatency : Nat
  maxLatency : Nat
deriving DecidableEq, Repr

/-- The upstream peer's answer to a latency query: whether `peer_query`
succeeded and, when it did, the (live, min, max) triple it stored. -/
structure PeerLatency where
  success : Bool
  live : Bool
  minLatency : Nat
  maxLatency : Nat
deriving DecidableEq, Repr

/-- The `Latency` branch of `InputSelectorPadSrcHandler::src_query`: start
from `ret = true`, `min = max = 0`; if an active sink pad exists, query its
upstream peer, and on success take min/max from the peer's result; finally
store `(true, min, max)` in the query — the live flag is the literal `true`
— and return `ret`. -/
def src_query_latency (st : State) (peer : PeerLatency) : LatencyAnswer :=
  match st.active_sinkpad with
  | some _ =>
      if peer.success then
        { ret := true, live := true,
          minLatency := peer.minLatency, maxLatency := peer.maxLatency }
      else
        { ret := false, live := true, minLatency := 0, maxLatency := 0 }
  | none => { ret := true, live := true, minLatency := 0, maxLatency := 0 }

/-- One buffer of a buffer list, with its oracles. -/
structure ChainItem where
  buffer : Buffer
  now : Option Nat
  cancelled : Bool
  push_res : FlowRes

/-- `InputSelectorPadSinkHandler::sink_chain_list`: run `handle_item` on
each buffer of the list in order; `?` stops at the first failing buffer and
returns its error (actions already pushed stay pushed); if all succeed the
list result is `Ok`. -/
def sink_chain_list (pad : SinkPad) : State → SinkInner → List ChainItem →
    State × SinkInner × List Act × FlowRes
  | st, inner, [] => (st, inner, [], FlowRes.ok)
  | st, inner, it :: rest =>
      let r := handle_item pad st inner it.buffer it.now it.cancelled
        it.push_res
      match r.result with
      | FlowRes.err e => (r.state, r.inner, r.trace, FlowRes.err e)
      | FlowRes.ok =>
          let rec1 := sink_chain_list pad r.state r.inner rest
          (rec1.1, rec1.2.1, r.trace ++ rec1.2.2.1, rec1.2.2.2)

/-- The per-buffer trajectory of a buffer list: every buffer's
`handle_item` result with the state threaded through, with no early exit. -/
def chain_steps (pad : SinkPad) : State → SinkInner → List ChainItem →
    List ItemResult
  | _, _, [] => []
  | st, inner, it :: rest =>
      let r := handle_item pad st inner it.buffer it.now it.cancelled
        it.push_res
      r :: chain_steps pad r.state r.inner rest

/-- Truncate a trajectory at (and including) its first failing step. -/
def truncate_at_failure : List ItemResult → List ItemResult
  | [] => []
  | r :: rest =>
      match r.result with
      | FlowRes.err _ => [r]
      | FlowRes.ok => r :: truncate_at_failure rest

/-- The first failure of a trajectory, or `Ok` if every step succeeded. -/
def first_failure : List ItemResult → FlowRes
  | [] => FlowRes.ok
  | r :: rest =>
      match r.result with
      | FlowRes.err e => FlowRes.err e
      | FlowRes.ok => first_failure rest

/-! ## Claim C6: `set_active` validation and deactivation -/

/-- C6: `set_active` with an identity not naming a connected input leaves
the state unchanged; with a connected input it sets that input active and
raises `switched_pad`; with `none` it clears the active input (leaving
`switched_pad` as it was), after which `handle_item` on any pad never
pushes a buffer. -/
theorem c6_set_active_cases (st : State) (connected : List Nat) (p : Nat) :
    (connected.contains p = false → set_active st connected (some p) = st) ∧
    (connected.contains p = true →
      set_active st connected (some p)
        = { active_sinkpad := some p, switched_pad := true }) ∧
    (set_active st connected none
        = { active_sinkpad := none, switched_pad := st.switched_pad } ∧
      ∀ (pad : SinkPad) (inner : SinkInner) (buffer : Buffer)
        (now : Option Nat) (cancelled : Bool) (push_res : FlowRes)
        (b : Buffer),
        Act.pushBuffer b ∉
          (handle_item pad (set_active st connected none) inner buffer now
            cancelled push_res).trace) := by
  refine ⟨?_, ?_, ?_, ?_⟩
  · intro h
    simp only [set_active]
    rw [h]
    simp
  · intro h
    simp only [set_active]
    rw [h]
    simp
  · rfl
  · intro pad inner buffer now cancelled push_res b
    have hact : (set_active st connected none).active_sinkpad = none := rfl
    simp only [handle_item, handle_item_cs, hact]
    rw [if_neg (by simp)]
    cases hseg : inner.segment with
    | none =>
        cases cancelled <;>
          simp [handle_item_rest, segTargetTime, hseg]
    | some s =>
        cases s with
        | time f =>
            cases cancelled <;>
              simp [handle_item_rest, segTargetTime, hseg]
        | nonTime =>
            cases cancelled <;>
              simp [handle_item_rest, segTargetTime, hseg]

/-- Witness for C6 at concrete inputs: selecting the unknown pad 2 leaves
the state unchanged. -/
theorem c6_set_active_cases_witness :
    set_active { active_sinkpad := some 0, switched_pad := false } [0, 1]
      (some 2) = { active_sinkpad := some 0, switched_pad := false } :=
  (c6_set_active_cases { active_sinkpad := some 0, switched_pad := false }
    [0, 1] 2).1 (by decide)

/-! ## Claim C4: re-selecting the already-active input -/

/-- C4 counterexample: with pad 0 connected, already active and
`switched_pad = false`, `set_active` on pad 0 again raises `switched_pad` —
the claim that re-selecting the active input does not set the switch flag is
false. -/
theorem c4_counterexample :
    set_active { active_sinkpad := some 0, switched_pad := false } [0]
        (some 0)
      = { active_sinkpad := some 0, switched_pad := true } ∧
    (set_active { active_sinkpad := some 0, switched_pad := false } [0]
        (some 0)).switched_pad ≠ false := by
  constructor
  · rfl
  · decide

/-- C4 amended: `set_active` with a connected input sets `switched_pad`
unconditionally — also when that input is already the active one — so the
next forwarded buffer gets a (fresh) discontinuity marker and sticky
replay; the code has no special case for the already-active pad. -/
theorem c4_reselect_sets_switch (st : State) (connected : List Nat)
    (p : Nat) (hconn : connected.contains p = true)
    (_halready : st.active_sinkpad = some p) :
    set_active st connected (some p)
      = { active_sinkpad := some p, switched_pad := true } := by
  simp only [set_active]
  rw [hconn]
  simp

/-- Witness for C4 amended at concrete inputs. -/
theorem c4_reselect_sets_switch_witness :
    set_active { active_sinkpad := some 0, switched_pad := false } [0]
      (some 0) = { active_sinkpad := some 0, switched_pad := true } :=
  c4_reselect_sets_switch { active_sinkpad := some 0, switched_pad := false }
    [0] 0 (by decide) rfl

/-! ## Claim C3: the latency query on the source pad -/

/-- C3 counterexample: with an active input whose peer reports
`live = false`, `min = 3`, `max = 7`, the handler stores `live = true` —
the peer's live flag is not relayed unchanged. -/
theorem c3_counterexample :
    src_query_latency { active_sinkpad := some 0, switched_pad := false }
        { success := true, live := false, minLatency := 3, maxLatency := 7 }
      = { ret := true, live := true, minLatency := 3, maxLatency := 7 } ∧
    (src_query_latency { active_sinkpad := some 0, switched_pad := false }
        { success := true, live := false, minLatency := 3,
          maxLatency := 7 }).live
      ≠ (⟨true, false, 3, 7⟩ : PeerLatency).live := by
  constructor
  · rfl
  · decide

/-- C3 amended: when an active input exists and its peer's latency query
succeeds, the peer's min/max bounds are relayed unchanged but the live flag
is always stored as `true` regardless of the peer's; when the peer query
fails the stored result is `(true, 0, 0)` with return value `false`; when
no active input exists the stored result is `(true, 0, 0)` with return
value `true`. -/
theorem c3_latency_query (st : State) (peer : PeerLatency) :
    (st.active_sinkpad.isSome = true → peer.success = true →
      src_query_latency st peer
        = { ret := true, live := true, minLatency := peer.minLatency,
            maxLatency := peer.maxLatency }) ∧
    (st.active_sinkpad.isSome = true → peer.success = false →
      src_query_latency st peer
        = { ret := false, live := true, minLatency := 0,
            maxLatency := 0 }) ∧
    (st.active_sinkpad = none →
      src_query_latency st peer
        = { ret := true, live := true, minLatency := 0, maxLatency := 0 }) := by
  refine ⟨?_, ?_, ?_⟩
  · intro hact hpeer
    cases h : st.active_sinkpad with
    | none => rw [h] at hact; simp at hact
    | some q => simp [src_query_latency, h, hpeer]
  · intro hact hpeer
    cases h : st.active_sinkpad with
    | none => rw [h] at hact; simp at hact
    | some q => simp [src_query_latency, h, hpeer]
  · intro h
    simp [src_query_latency, h]

/-- Witness for C3 amended at concrete inputs. -/
theorem c3_latency_query_witness :
    src_query_latency { active_sinkpad := some 1, switched_pad := true }
        { success := true, live := false, minLatency := 2, maxLatency := 9 }
      = { ret := true, live := true, minLatency := 2, maxLatency := 9 } :=
  (c3_latency_query { active_sinkpad := some 1, switched_pad := true }
    { success := true, live := false, minLatency := 2,
      maxLatency := 9 }).1 rfl rfl

/-! ## Claim C1: order of wait, sticky pushes and buffer push -/

/-- C1 counterexample: on an active input with a known time segment and an
owed sticky event, the trace begins with the completed wait, not with the
sticky push — the sticky items are not forwarded before the wait completes.
(Pad 0 active, sticky event 7 owed, identity time segment, buffer already
due at running time 9.) -/
theorem c1_counterexample :
    (handle_item { id := 0, stickies := [7] }
        { active_sinkpad := some 0, switched_pad := false }
        { segment := some (Segment.time (fun p => p)), send_sticky := true,
          abort_handle := false }
        { id := 1, pts := some 5, discont := true } (some 9) false
        FlowRes.ok).trace
      = [Act.wait none, Act.pushEvent 7,
          Act.pushBuffer { id := 1, pts := some 5, discont := true }] ∧
    (handle_item { id := 0, stickies := [7] }
        { active_sinkpad := some 0, switched_pad := false }
        { segment := some (Segment.time (fun p => p)), send_sticky := true,
          abort_handle := false }
        { id := 1, pts := some 5, discont := true } (some 9) false
        FlowRes.ok).trace.head?
      ≠ some (Act.pushEvent 7) := by
  constructor
  · rfl
  · intro h
    simp only [handle_item, handle_item_cs, handle_item_rest] at h
    exact absurd h (by decide)

/-- C1 amended: on an active input whose time segment is known, the
presentation-time wait completes first, then the collected sticky events
are forwarded, then the buffer; if the wait is cancelled the whole
operation aborts with `Flushing` and neither the sticky events nor the
buffer are forwarded. -/
theorem c1_wait_then_stickies_then_buffer (pad : SinkPad) (st : State)
    (inner : SinkInner) (buffer : Buffer) (now : Option Nat)
    (cancelled : Bool) (push_res : FlowRes)
    (f : Option Nat → Option Nat)
    (hseg : inner.segment = some (Segment.time f))
    (hact : st.active_sinkpad = some pad.id) :
    (cancelled = true →
      (handle_item pad st inner buffer now cancelled push_res).result
          = FlowRes.err FlowError.flushing ∧
      (handle_item pad st inner buffer now cancelled push_res).trace = []) ∧
    (cancelled = false →
      (handle_item pad st inner buffer now cancelled push_res).trace
        = Act.wait (sync_delay now (f buffer.pts)) ::
            ((if inner.send_sticky || st.switched_pad then pad.stickies
              else []).map Act.pushEvent
              ++ [Act.pushBuffer
                    (if st.switched_pad && !buffer.discont then
                      { buffer with discont := true }
                    else buffer)])) := by
  constructor
  · intro hc
    subst hc
    cases howed : (inner.send_sticky || st.switched_pad) <;>
      simp [handle_item, handle_item_cs, handle_item_rest, segTargetTime,
        hseg, hact, howed]
  · intro hc
    subst hc
    cases howed : (inner.send_sticky || st.switched_pad) <;>
      simp [handle_item, handle_item_cs, handle_item_rest, segTargetTime,
        hseg, hact, howed]

/-- Witness for C1 amended at concrete inputs: cancelled wait on the active
pad yields `Flushing` with an empty trace. -/
theorem c1_wait_then_stickies_then_buffer_witness :
    (handle_item { id := 0, stickies := [7] }
        { active_sinkpad := some 0, switched_pad := false }
        { segment := some (Segment.time (fun p => p)), send_sticky := true,
          abort_handle := false }
        { id := 1, pts := some 5, discont := true } (some 9) true
        FlowRes.ok).result
      = FlowRes.err FlowError.flushing :=
  ((c1_wait_then_stickies_then_buffer { id := 0, stickies := [7] }
    { active_sinkpad := some 0, switched_pad := false }
    { segment := some (Segment.time (fun p => p)), send_sticky := true,
      abort_handle := false }
    { id := 1, pts := some 5, discont := true } (some 9) true
    FlowRes.ok (fun p => p) rfl rfl).1 rfl).1

/-! ## Claim C2: discontinuity and sticky replay after a switch -/

/-- C2: after `set_active` selects a connected input, the next buffer
handled on that input (with its wait not cancelled) is forwarded carrying
the `DISCONT` flag — set if it was not already present — and is preceded on
the output by all of that pad's sticky events in their announce order
(after the wait, if a time segment is known). -/
theorem c2_switch_discont_and_replay (st : State) (connected : List Nat)
    (pad : SinkPad) (inner : SinkInner) (buffer : Buffer) (now : Option Nat)
    (push_res : FlowRes) (hconn : connected.contains pad.id = true) :
    (handle_item pad (set_active st connected (some pad.id)) inner buffer
        now false push_res).trace
      = waitTrace inner buffer.pts now
          ++ pad.stickies.map Act.pushEvent
          ++ [Act.pushBuffer { buffer with discont := true }] := by
  have hst : set_active st connected (some pad.id)
      = { active_sinkpad := some pad.id, switched_pad := true } := by
    simp only [set_active]
    rw [hconn]
    simp
  rw [hst]
  obtain ⟨bid, bpts, bd⟩ := buffer
  cases hseg : inner.segment with
  | none =>
      cases bd <;>
        simp [handle_item, handle_item_cs, handle_item_rest, segTargetTime,
          waitTrace, hseg]
  | some s =>
      cases s with
      | time f =>
          cases bd <;>
            simp [handle_item, handle_item_cs, handle_item_rest,
              segTargetTime, waitTrace, hseg]
      | nonTime =>
          cases bd <;>
            simp [handle_item, handle_item_cs, handle_item_rest,
              segTargetTime, waitTrace, hseg]

/-- Witness for C2 at concrete inputs: after switching to pad 1, its buffer
(without `DISCONT`) is forwarded with `DISCONT` set, preceded by its sticky
events 4 and 5 in order. -/
theorem c2_switch_discont_and_replay_witness :
    (handle_item { id := 1, stickies := [4, 5] }
        (set_active { active_sinkpad := some 0, switched_pad := false }
          [0, 1] (some 1))
        initialSinkInner { id := 9, pts := none, discont := false } none
        false FlowRes.ok).trace
      = waitTrace initialSinkInner none none
          ++ [4, 5].map Act.pushEvent
          ++ [Act.pushBuffer { id := 9, pts := none, discont := true }] :=
  c2_switch_discont_and_replay
    { active_sinkpad := some 0, switched_pad := false } [0, 1]
    { id := 1, stickies := [4, 5] } initialSinkInner
    { id := 9, pts := none, discont := false } none FlowRes.ok (by decide)

/-! ## Claim C5: buffers on inactive inputs -/

/-- C5 counterexample: a buffer on an inactive input whose time segment is
known and whose wait is cancelled makes `handle_item` return `Flushing`,
not success (while still forwarding nothing). -/
theorem c5_counterexample :
    (handle_item { id := 1, stickies := [5] }
        { active_sinkpad := some 0, switched_pad := true }
        { segment := some (Segment.time (fun p => p)), send_sticky := true,
          abort_handle := false }
        { id := 2, pts := some 3, discont := false } (some 0) true
        FlowRes.ok).result
      = FlowRes.err FlowError.flushing ∧
    (handle_item { id := 1, stickies := [5] }
        { active_sinkpad := some 0, switched_pad := true }
        { segment := some (Segment.time (fun p => p)), send_sticky := true,
          abort_handle := false }
        { id := 2, pts := some 3, discont := false } (some 0) true
        FlowRes.ok).result
      ≠ FlowRes.ok ∧
    (handle_item { id := 1, stickies := [5] }
        { active_sinkpad := some 0, switched_pad := true }
        { segment := some (Segment.time (fun p => p)), send_sticky := true,
          abort_handle := false }
        { id := 2, pts := some 3, discont := false } (some 0) true
        FlowRes.ok).trace
      = [] := by
  refine ⟨rfl, ?_, rfl⟩
  intro h
  simp only [handle_item, handle_item_cs, handle_item_rest] at h
  exact absurd h (by decide)

/-- C5 amended: a buffer on an inactive input forwards nothing to the
output — no sticky events, no buffer — and returns success, unless a
presentation-time wait was started and cancelled, in which case it returns
`Flushing` (still forwarding nothing). -/
theorem c5_inactive_never_forwards (pad : SinkPad) (st : State)
    (inner : SinkInner) (buffer : Buffer) (now : Option Nat)
    (cancelled : Bool) (push_res : FlowRes)
    (hinact : st.active_sinkpad ≠ some pad.id) :
    (∀ e, Act.pushEvent e ∉
        (handle_item pad st inner buffer now cancelled push_res).trace) ∧
    (∀ b, Act.pushBuffer b ∉
        (handle_item pad st inner buffer now cancelled push_res).trace) ∧
    (handle_item pad st inner buffer now cancelled push_res).result
      = (if (segTargetTime inner buffer.pts).isSome && cancelled then
          FlowRes.err FlowError.flushing
        else FlowRes.ok) := by
  simp only [handle_item, handle_item_cs]
  rw [if_neg hinact]
  cases hseg : inner.segment with
  | none =>
      cases cancelled <;>
        simp [handle_item_rest, segTargetTime, hseg]
  | some s =>
      cases s <;> cases cancelled <;>
        simp [handle_item_rest, segTargetTime, hseg]

/-- Witness for C5 amended at concrete inputs: a buffer on inactive pad 1
returns success (nothing cancelled). -/
theorem c5_inactive_never_forwards_witness :
    (handle_item { id := 1, stickies := [] }
        { active_sinkpad := some 0, switched_pad := true }
        initialSinkInner { id := 2, pts := none, discont := false } none
        false FlowRes.ok).result
      = FlowRes.ok := by
  have h := (c5_inactive_never_forwards { id := 1, stickies := [] }
    { active_sinkpad := some 0, switched_pad := true }
    initialSinkInner { id := 2, pts := none, discont := false } none
    false FlowRes.ok (by decide)).2.2
  simpa [initialSinkInner, segTargetTime] using h

/-! ## Claim C7: flush-start propagation and wait cancellation -/

/-- C7: when a flush-start arrives on an input while that input's buffer
has a pending wait (a time segment is known, so an abortable sync future
with a stored abort handle exists), the flush-start handler pushes the
flush-start downstream, the abort handle is taken (left empty) and aborted,
and the resumed buffer operation ends in `Flushing` with nothing pushed —
the stale buffer is never forwarded. -/
theorem c7_flush_start_cancels_wait (pad : SinkPad) (st : State)
    (inner : SinkInner) (buffer : Buffer) (now : Option Nat)
    (push_res : FlowRes) (f : Option Nat → Option Nat)
    (hseg : inner.segment = some (Segment.time f)) :
    (handle_item_with_flush pad st inner buffer now push_res).2
      = [Act.pushFlushStart] ∧
    (handle_item_with_flush pad st inner buffer now push_res).1.result
      = FlowRes.err FlowError.flushing ∧
    (handle_item_with_flush pad st inner buffer now push_res).1.trace
      = [] ∧
    (handle_item_with_flush pad st inner buffer now
        push_res).1.inner.abort_handle
      = false := by
  by_cases hact : st.active_sinkpad = some pad.id <;>
    cases howed : (inner.send_sticky || st.switched_pad) <;>
      simp [handle_item_with_flush, handle_item_cs, handle_item_rest,
        sink_event_flush_start, segTargetTime, hseg, hact, howed]

/-- Witness for C7 at concrete inputs. -/
theorem c7_flush_start_cancels_wait_witness :
    (handle_item_with_flush { id := 0, stickies := [] }
        { active_sinkpad := some 0, switched_pad := false }
        { segment := some (Segment.time (fun p => p)), send_sticky := false,
          abort_handle := false }
        { id := 4, pts := some 100, discont := false } (some 0)
        FlowRes.ok).1.result
      = FlowRes.err FlowError.flushing :=
  (c7_flush_start_cancels_wait { id := 0, stickies := [] }
    { active_sinkpad := some 0, switched_pad := false }
    { segment := some (Segment.time (fun p => p)), send_sticky := false,
      abort_handle := false }
    { id := 4, pts := some 100, discont := false } (some 0) FlowRes.ok
    (fun p => p) rfl).2.1

/-! ## Claim C8: the presentation-time wait -/

/-- C8 counterexample: a clock with no valid current time is treated
exactly like an already-due buffer — `sync` skips the delay and the buffer
is forwarded immediately in both cases, refuting the claim that the two
cases are treated differently. -/
theorem c8_counterexample :
    sync_delay none (some 5) = none ∧
    sync_delay (some 9) (some 5) = none ∧
    sync_delay none (some 5) = sync_delay (some 9) (some 5) ∧
    (handle_item { id := 0, stickies := [] }
        { active_sinkpad := some 0, switched_pad := false }
        { segment := some (Segment.time (fun p => p)), send_sticky := false,
          abort_handle := false }
        { id := 3, pts := some 5, discont := true } none false
        FlowRes.ok).trace
      = [Act.wait none,
          Act.pushBuffer { id := 3, pts := some 5, discont := true }] := by
  refine ⟨rfl, ?_, ?_, rfl⟩ <;> rfl

/-- C8 amended: `sync` suspends for `target - now` exactly when the clock
reports a valid current time `now` strictly before the target; when the
target is already reached, when the target is `none`, or when the clock has
no valid current time, it returns immediately (no suspension) — the
no-valid-time case behaves the same as already-due. A run whose wait is not
cancelled can only report `Flushing` if the downstream push itself did. -/
theorem c8_sync_semantics :
    (∀ n t : Nat, n < t → sync_delay (some n) (some t) = some (t - n)) ∧
    (∀ n t : Nat, ¬n < t → sync_delay (some n) (some t) = none) ∧
    (∀ target : Option Nat, sync_delay none target = none) ∧
    (∀ now : Option Nat, sync_delay now none = none) ∧
    (∀ (pad : SinkPad) (st : State) (inner : SinkInner) (buffer : Buffer)
      (now : Option Nat) (push_res : FlowRes),
      (handle_item pad st inner buffer now false push_res).result
          = FlowRes.err FlowError.flushing →
      push_res = FlowRes.err FlowError.flushing) := by
  refine ⟨?_, ?_, ?_, ?_, ?_⟩
  · intro n t h
    simp [sync_delay, clockLt, ctSub, h]
  · intro n t h
    simp [sync_delay, clockLt, ctSub, h]
  · intro target
    simp [sync_delay]
  · intro now
    cases now <;> simp [sync_delay, clockLt]
  · intro pad st inner buffer now push_res h
    simp only [handle_item, handle_item_rest, Bool.and_false] at h
    rw [if_neg (by simp)] at h
    split at h <;> simp_all

/-- Witness for C8 amended at concrete inputs: target 5 with current time 2
suspends for 3 nanoseconds. -/
theorem c8_sync_semantics_witness :
    sync_delay (some 2) (some 5) = some (5 - 2) :=
  c8_sync_semantics.1 2 5 (by decide)

/-! ## Claim C9: buffer lists -/

/-- A trajectory whose steps all succeed has no first failure. -/
theorem first_failure_of_all_ok (l : List ItemResult)
    (h : ∀ r ∈ l, r.result = FlowRes.ok) : first_failure l = FlowRes.ok := by
  induction l with
  | nil => rfl
  | cons r rest ih =>
      have hr := h r (List.mem_cons_self r rest)
      simp only [first_failure, hr]
      exact ih fun x hx => h x (List.mem_cons_of_mem _ hx)

/-- C9: a buffer list is handled as the same per-buffer operations in list
order with the state threaded through (`chain_steps`); the pushed actions
are exactly those of the steps up to and including the first failing one
(earlier forwarding is not undone), the list result is the first failure,
and if every step succeeds the list result is `Ok`. -/
theorem c9_chain_list_first_failure (pad : SinkPad) (st : State)
    (inner : SinkInner) (items : List ChainItem) :
    (sink_chain_list pad st inner items).2.2.1
      = ((truncate_at_failure (chain_steps pad st inner items)).map
          ItemResult.trace).flatten ∧
    (sink_chain_list pad st inner items).2.2.2
      = first_failure (chain_steps pad st inner items) ∧
    ((∀ r ∈ chain_steps pad st inner items, r.result = FlowRes.ok) →
      (sink_chain_list pad st inner items).2.2.2 = FlowRes.ok) := by
  have key : ∀ (l : List ChainItem) (st : State) (inner : SinkInner),
      (sink_chain_list pad st inner l).2.2.1
        = ((truncate_at_failure (chain_steps pad st inner l)).map
            ItemResult.trace).flatten ∧
      (sink_chain_list pad st inner l).2.2.2
        = first_failure (chain_steps pad st inner l) := by
    intro l
    induction l with
    | nil =>
        intro st inner
        exact ⟨rfl, rfl⟩
    | cons it rest ih =>
        intro st inner
        simp only [sink_chain_list, chain_steps]
        cases hres : (handle_item pad st inner it.buffer it.now it.cancelled
            it.push_res).result with
        | err e =>
            simp [hres, truncate_at_failure, first_failure]
        | ok =>
            simp [hres, truncate_at_failure, first_failure,
              (ih _ _).1, (ih _ _).2]
  refine ⟨(key items st inner).1, (key items st inner).2, ?_⟩
  intro h
  rw [(key items st inner).2]
  exact first_failure_of_all_ok _ h

/-- Witness for C9 at concrete inputs: a two-buffer list on the active pad
where every step succeeds yields `Ok`. -/
theorem c9_chain_list_first_failure_witness :
    (sink_chain_list { id := 0, stickies := [] }
        { active_sinkpad := some 0, switched_pad := false }
        initialSinkInner
        [{ buffer := { id := 1, pts := none, discont := true }, now := none,
            cancelled := false, push_res := FlowRes.ok },
          { buffer := { id := 2, pts := none, discont := true }, now := none,
            cancelled := false, push_res := FlowRes.ok }]).2.2.2
      = FlowRes.ok := by
  exact (c9_chain_list_first_failure { id := 0, stickies := [] }
    { active_sinkpad := some 0, switched_pad := false }
    initialSinkInner _).2.2 (by decide)

/-! ## Claim C10: no rollback after a cancelled wait -/

/-- C10: when the wait of a buffer on the active input is cancelled after
the critical section has collected the owed stickies, the run returns
`Flushing` having pushed nothing, with `send_sticky` and `switched_pad`
already cleared and not restored; a subsequent successful buffer on the
same pad (with no intervening events) replays no sticky events and gets no
forced discontinuity marker — it is pushed unchanged after its wait. -/
theorem c10_cancel_does_not_roll_back (pad : SinkPad) (st : State)
    (inner : SinkInner) (buffer : Buffer) (now : Option Nat)
    (push_res : FlowRes) (f : Option Nat → Option Nat)
    (hact : st.active_sinkpad = some pad.id)
    (hseg : inner.segment = some (Segment.time f))
    (howed : (inner.send_sticky || st.switched_pad) = true) :
    (handle_item pad st inner buffer now true push_res).result
      = FlowRes.err FlowError.flushing ∧
    (handle_item pad st inner buffer now true push_res).trace = [] ∧
    (handle_item pad st inner buffer now true push_res).inner.send_sticky
      = false ∧
    (handle_item pad st inner buffer now true push_res).state.switched_pad
      = false ∧
    (∀ (buffer2 : Buffer) (now2 : Option Nat) (push_res2 : FlowRes),
      (handle_item pad
          (handle_item pad st inner buffer now true push_res).state
          (handle_item pad st inner buffer now true push_res).inner
          buffer2 now2 false push_res2).trace
        = [Act.wait (sync_delay now2 (f buffer2.pts)),
            Act.pushBuffer buffer2]) := by
  have hr : handle_item pad st inner buffer now true push_res
      = { state := { st with switched_pad := false },
          inner := { segment := inner.segment,
                     send_sticky := false,
                     abort_handle := true },
          trace := [], result := FlowRes.err FlowError.flushing } := by
    simp only [handle_item, handle_item_cs, segTargetTime, hseg, hact]
    rw [if_pos trivial]
    rw [if_pos (by simp [howed])]
    simp [handle_item_rest]
  rw [hr]
  refine ⟨rfl, rfl, rfl, rfl, ?_⟩
  intro buffer2 now2 push_res2
  simp [handle_item, handle_item_cs, handle_item_rest, segTargetTime, hseg,
    hact]

/-- Witness for C10 at concrete inputs: pad 0 active with an owed sticky
replay and a cancelled wait ends in `Flushing`. -/
theorem c10_cancel_does_not_roll_back_witness :
    (handle_item { id := 0, stickies := [8] }
        { active_sinkpad := some 0, switched_pad := true }
        { segment := some (Segment.time (fun p => p)), send_sticky := true,
          abort_handle := false }
        { id := 6, pts := some 1, discont := false } (some 0) true
        FlowRes.ok).result
      = FlowRes.err FlowError.flushing :=
  (c10_cancel_does_not_roll_back { id := 0, stickies := [8] }
    { active_sinkpad := some 0, switched_pad := true }
    { segment := some (Segment.time (fun p => p)), send_sticky := true,
      abort_handle := false }
    { id := 6, pts := some 1, discont := false } (some 0) FlowRes.ok
    (fun p => p) rfl rfl (by simp)).1

end ThreadshareInputSelector
